import Mathlib

/-!
Shallow embedding of the link-resolution / task-orchestration engine
(Next.js + Firestore app): the per-link result writer and task status
derivation, the cron orchestrator's queue-item finalization, the link
processor (cache / timeout race / auto-retry), the link cache, the
resolver chain's timer-bypass loop, the HTTP retry wrapper, the
time-budgeted sequential loop, stuck-work recovery, the client-side
stream/poll consistency shield, and the submit/duplicate gate.

Statuses are modelled as the raw strings the code compares; machine time
is Nat milliseconds; network and DOM effects are oracles passed in as
explicit function arguments; Firestore documents are explicit values
threaded through pure functions.
-/

namespace Mflix

/-- JavaScript `String.prototype.includes`: substring containment. -/
def includes (s sub : String) : Bool :=
  let sl := s.toList
  let tl := sub.toList
  (List.range (sl.length + 1)).any fun i => tl.isPrefixOf (sl.drop i)

/-- JavaScript `String.prototype.toLowerCase`, character by character. -/
def toLowerStr (s : String) : String :=
  String.mk (s.toList.map Char.toLower)

/-- JavaScript `String.prototype.trim`: strip whitespace from both ends. -/
def trimStr (s : String) : String :=
  String.mk (((s.toList.dropWhile Char.isWhitespace).reverse.dropWhile
    Char.isWhitespace).reverse)

/-! ## Configuration constants (src/lib/config.ts) -/

def TIMER_DOMAINS : List String :=
  ["gadgetsweb", "review-tech", "ngwin", "cryptoinsights",
   "techbigs", "apkdone", "linkvertise", "shrinkme", "shorte",
   "ouo.io", "ouo.press", "rocklinks", "adlinkfly"]

def TARGET_DOMAINS : List String :=
  ["hblinks", "hubdrive", "hubcdn", "hubcloud", "gdflix", "drivehub",
   "filepress", "hubstream", "hdstream", "kolop", "fastdl"]

def LINK_TIMEOUT_MS : Nat := 20000

def HTTP_522_MAX_RETRIES : Nat := 2

def STUCK_TASK_THRESHOLD_MS : Nat := 10 * 60 * 1000

def MAX_CRON_RETRIES : Nat := 3

def CACHE_EXPIRY_MS : Nat := 24 * 60 * 60 * 1000

def HUBCLOUD_TLDS : List String :=
  [".foo", ".fans", ".dev", ".cloud", ".icu", ".lol", ".art", ".in", ".store"]

def HUBDRIVE_TLDS : List String := [".space", ".pro", ".in"]

def TIME_BUDGET_MS : Nat := 45000

/-! ## Link records and the task-status derivation (solve_task route,
`saveResultToFirestore`).  A missing `status` field is modelled as `""`,
matching the code's `(l.status || '')`. -/

/-- One element of a task's `links[]` array. -/
structure LinkRec where
  id : Nat
  link : String
  status : String
  finalLink : Option String
  error : Option String
deriving DecidableEq, Repr

/-- `['done', 'success', 'error', 'failed']` — the terminal link statuses. -/
def TERMINAL_STATUSES : List String := ["done", "success", "error", "failed"]

/-- `(l.status || '').toLowerCase()` is in the terminal list. -/
def isTerminal (s : String) : Bool := TERMINAL_STATUSES.contains (toLowerStr s)

/-- `['done', 'success']` membership after lowercasing. -/
def isSuccess (s : String) : Bool := ["done", "success"].contains (toLowerStr s)

/-- The result object passed to `saveResultToFirestore`. -/
structure SaveResult where
  status : Option String
  finalLink : Option String
  error : Option String
deriving DecidableEq, Repr

/-- The per-link update inside the `saveResultToFirestore` transaction:
links matching by id or by original url get the result folded in
(`status: result.status ?? 'error'`, `finalLink: result.finalLink ?? l.finalLink ?? null`). -/
def applyResult (lid : Nat) (linkUrl : String) (result : SaveResult) (l : LinkRec) : LinkRec :=
  if l.id = lid ∨ l.link = linkUrl then
    { l with
        finalLink := result.finalLink.orElse fun _ => l.finalLink
        status := result.status.getD "error"
        error := result.error }
  else l

/-- The task status written by the transaction:
`allDone ? (anySuccess ? 'completed' : 'failed') : 'processing'`. -/
def deriveTaskStatus (links : List LinkRec) : String :=
  let allDone := links.all fun l => isTerminal l.status
  let anySuccess := links.any fun l => isSuccess l.status
  if allDone then (if anySuccess then "completed" else "failed") else "processing"

/-- `saveResultToFirestore`'s transaction body as a pure function: maps the
per-link update over `links[]` and recomputes the aggregate task status. -/
def saveResultToFirestore (links : List LinkRec) (lid : Nat) (linkUrl : String)
    (result : SaveResult) : List LinkRec × String :=
  let updated := links.map (applyResult lid linkUrl result)
  (updated, deriveTaskStatus updated)

/-! ## Cron orchestrator: claimed queue item's terminal update
(cron/process-queue route, `GET`, Step 8).  `hasDeferredLinks` is the flag
set when the sequential time budget expired; `errorCount`, `doneCount` are
the tallies over both routing classes; `pendingCount` is
`pendingLinks.length`; `retryCount` is `item.retryCount || 0`. -/

/-- The status and retryCount written to the claimed queue item at the end
of a cron run: deferred → `'pending'` (re-queue, unlock); otherwise
`allLinksSucceeded = !hasDeferredLinks && errorCount === 0 && doneCount ===
pendingLinks.length` → `'completed'`; otherwise `'failed'`.  In all three
branches the code writes `retryCount: item.retryCount || 0`, unchanged. -/
def cronQueueItemUpdate (hasDeferredLinks : Bool) (errorCount doneCount pendingCount : Nat)
    (retryCount : Nat) : String × Nat :=
  if hasDeferredLinks then ("pending", retryCount)
  else if errorCount = 0 ∧ doneCount = pendingCount then ("completed", retryCount)
  else ("failed", retryCount)

/-- The queue item update in the cron's link-extraction failure path
(`catch (extractionError)`): `isFinalFail = currentRetries >= MAX_CRON_RETRIES`,
status `'failed'` or `'pending'`, and `retryCount: currentRetries + 1`. -/
def cronExtractionFailureUpdate (currentRetries : Nat) : String × Nat :=
  if MAX_CRON_RETRIES ≤ currentRetries then ("failed", currentRetries + 1)
  else ("pending", currentRetries + 1)

/-! ## Stuck-work recovery (cron/process-queue route, `recoverStuckTasks`). -/

/-- A queue document (movies_queue / webseries_queue).  Timestamps are
milliseconds; a missing timestamp is `none`. -/
structure QueueItemRec where
  status : String
  lockedAt : Option Nat
  updatedAt : Option Nat
  createdAt : Option Nat
  retryCount : Nat
  error : Option String
deriving DecidableEq, Repr

/-- `data.lockedAt || data.updatedAt || data.createdAt`. -/
def queueLockRef (q : QueueItemRec) : Option Nat :=
  (q.lockedAt.orElse fun _ => q.updatedAt).orElse fun _ => q.createdAt

/-- `lockedMs = lockedAt ? now - new Date(lockedAt).getTime() : Infinity`,
compared against the stuck threshold (`Infinity` always exceeds it). -/
def queueIsStale (now : Nat) (q : QueueItemRec) : Bool :=
  match queueLockRef q with
  | none => true
  | some t => STUCK_TASK_THRESHOLD_MS < now - t

/-- Part A of `recoverStuckTasks` for one queue document: only items with
status `'processing'` whose lock age exceeds the threshold are touched;
`retryCount = (data.retryCount || 0) + 1` then either permanent failure
(`retryCount > MAX_CRON_RETRIES`, stored retryCount untouched) or re-queued
`'pending'` with the lock cleared and the incremented retryCount. -/
def recoverQueueItem (now : Nat) (q : QueueItemRec) : QueueItemRec :=
  if q.status ≠ "processing" then q
  else if ¬ queueIsStale now q then q
  else if MAX_CRON_RETRIES < q.retryCount + 1 then
    { q with status := "failed", error := some "Max retries exceeded 3/3" }
  else
    { q with status := "pending", lockedAt := none, retryCount := q.retryCount + 1 }

/-! ## Link processor (solve_task route, `processLink`).  The cache read
and the resolver chain are oracles indexed by the attempt number (1 or 2);
`ChainOutcome.timesOut` models the 20s race timer winning the
`Promise.race`. -/

/-- The shape of a solve result flowing through `processLink`. -/
structure WorkOutcome where
  status : String
  finalLink : Option String
  error : Option String
deriving DecidableEq, Repr

/-- Whether `solveWork()` settles before the per-link timer, and with what. -/
inductive ChainOutcome
  | completes (r : WorkOutcome)
  | timesOut
deriving DecidableEq, Repr

/-- `Promise.race([solveWork(), timeoutPromise])` followed by the catch:
a timeout becomes `{ status: 'error', error: 'Timed out after 20s' }`. -/
def raceResult : ChainOutcome → WorkOutcome
  | .completes r => r
  | .timesOut =>
    { status := "error", finalLink := none,
      error := some ("Timed out after " ++ toString (LINK_TIMEOUT_MS / 1000) ++ "s") }

/-- Environment for one `processLink` call: `cacheAt n` is the finalLink
field of the `getCachedLink` result during attempt `n` (`none` = cache
miss or cache-read failure), `chainAt n` is the `solveWork` behaviour on
attempt `n`. -/
structure ProcessEnv where
  cacheAt : Nat → Option String
  chainAt : Nat → ChainOutcome

/-- What one `processLink` invocation did: final result, number of cache
consultations, number of resolver-chain executions. -/
structure ProcessTrace where
  result : WorkOutcome
  cacheConsults : Nat
  chainRuns : Nat
deriving DecidableEq, Repr

/-- One attempt body: the cache check (`cached && cached.finalLink` — an
empty finalLink is falsy and falls through), then the timeout-raced chain.
Returns the result and the number of chain executions (0 or 1). -/
def processAttempt (cache : Option String) (chain : ChainOutcome) : WorkOutcome × Nat :=
  match cache with
  | some f =>
    if f ≠ "" then ({ status := "done", finalLink := some f, error := none }, 0)
    else (raceResult chain, 1)
  | none => (raceResult chain, 1)

/-- `processLink` with its auto-retry: attempt 1, and on
`result.status === 'error' && attempt === 1` a full re-entry as attempt 2
(which starts again at the cache check). -/
def processLink (env : ProcessEnv) : ProcessTrace :=
  let a1 := processAttempt (env.cacheAt 1) (env.chainAt 1)
  if a1.1.status = "error" then
    let a2 := processAttempt (env.cacheAt 2) (env.chainAt 2)
    { result := a2.1, cacheConsults := 2, chainRuns := a1.2 + a2.2 }
  else
    { result := a1.1, cacheConsults := 1, chainRuns := a1.2 }

/-! ## Result cache (lib/cache.ts).  The Firestore collection is a map
from document key to entry; document reads/writes are pure store
transformations. -/

/-- A `link_cache` document. -/
structure CachedLink where
  originalUrl : String
  finalLink : String
  solverUsed : String
  resolvedAt : Nat
  expiresAt : Nat
  hitCount : Nat
  status : String
  lastHitAt : Option Nat
deriving DecidableEq, Repr

/-- `hashUrl`: md5 of `url.toLowerCase().trim()`.  The md5 digest is
modelled by the normalized url itself — the code depends only on the key
being a (collision-free) function of the normalized url. -/
def hashUrl (url : String) : String := trimStr (toLowerStr url)

/-- The cache collection, keyed by url hash. -/
def CacheStore : Type := String → Option CachedLink

/-- `setCachedLink`: overwrite the entry for the key with a fresh document:
`expiresAt = now + CACHE_EXPIRY_MS`, `hitCount = 0`, `status = 'valid'`. -/
def setCachedLink (store : CacheStore) (originalUrl finalLink solverUsed : String)
    (now : Nat) : CacheStore :=
  fun k =>
    if k = hashUrl originalUrl then
      some { originalUrl := originalUrl, finalLink := finalLink,
             solverUsed := solverUsed, resolvedAt := now,
             expiresAt := now + CACHE_EXPIRY_MS, hitCount := 0,
             status := "valid", lastHitAt := none }
    else store k

/-- `getCachedLink`: absent → miss; past `expiresAt` → lazily mark the
entry `'expired'` and miss; status not `'valid'` → miss; otherwise a hit
that increments the stored `hitCount` and records `lastHitAt`, returning
the (pre-increment) document. -/
def getCachedLink (store : CacheStore) (url : String) (now : Nat) :
    Option CachedLink × CacheStore :=
  match store (hashUrl url) with
  | none => (none, store)
  | some data =>
    if data.expiresAt < now then
      (none, fun k => if k = hashUrl url then some { data with status := "expired" }
        else store k)
    else if ¬ data.status = "valid" then (none, store)
    else
      (some data,
       fun k => if k = hashUrl url then
          some { data with hitCount := data.hitCount + 1, lastHitAt := some now }
        else store k)

/-! ## Resolver chain (solve_task route, `solveWork`).  Each hop resolver
is an oracle; `Except.error` is its failure report. -/

/-- `solveHubCloudNative` success payload. -/
structure HubCloudRes where
  best_download_link : String
  best_button_name : Option String
  all_available_buttons : List String
deriving DecidableEq, Repr

/-- The hop resolvers seen by `solveWork`. -/
structure SolveEnv where
  hubcdn : String → Except String String
  gadgets : String → Except String String
  timer : String → Option String
  hblinks : String → Except String String
  hubdrive : String → Except String String
  hubcloud : String → Except String HubCloudRes

/-- `TIMER_DOMAINS.some(d => currentLink.includes(d))` (no lowercasing). -/
def timerDomainHit (url : String) : Bool :=
  TIMER_DOMAINS.any fun d => includes url d

/-- `TARGET_DOMAINS.some(d => currentLink.includes(d))` (no lowercasing). -/
def targetDomainHit (url : String) : Bool :=
  TARGET_DOMAINS.any fun d => includes url d

/-- The timer-bypass loop (`while (loopCount < 3 && !TARGET_DOMAINS...)`),
with `fuel = 3 - loopCount`.  Returns the final url together with the list
of urls a bypass resolver was invoked on.  The body breaks when the url is
not a timer domain AND the counter is still 0; a failed hop breaks with
the url unchanged; a successful hop replaces the url and increments the
counter. -/
def timerLoop (env : SolveEnv) : Nat → Nat → String → String × List String
  | 0, _, url => (url, [])
  | fuel + 1, lc, url =>
    if targetDomainHit url then (url, [])
    else if ¬ timerDomainHit url ∧ lc = 0 then (url, [])
    else if includes url "gadgetsweb" then
      match env.gadgets url with
      | .ok nxt =>
        let r := timerLoop env fuel (lc + 1) nxt
        (r.1, url :: r.2)
      | .error _ => (url, [])
    else
      match env.timer url with
      | some nxt =>
        let r := timerLoop env fuel (lc + 1) nxt
        (r.1, url :: r.2)
      | none => (url, [])

/-- The value produced by `solveWork` (logs omitted). -/
structure ChainResult where
  status : String
  finalLink : Option String
  error : Option String
  best_button_name : Option String
  all_available_buttons : List String
deriving DecidableEq, Repr

/-- An error return from the chain. -/
def mkChainError (m : String) : ChainResult :=
  { status := "error", finalLink := none, error := some m,
    best_button_name := none, all_available_buttons := [] }

/-- A plain done return from the chain. -/
def mkChainDone (f : String) : ChainResult :=
  { status := "done", finalLink := some f, error := none,
    best_button_name := none, all_available_buttons := [] }

/-- Steps 4c–4f of `solveWork`, applied to the post-loop url: hblinks hop,
hubdrive hop, hubcloud/hubcdn terminal resolve with buttons,
gdflix/drivehub returned as-is, otherwise the no-match error. -/
def afterLoop (env : SolveEnv) (u : String) : ChainResult :=
  let step1 : Except String String :=
    if includes u "hblinks" then env.hblinks u else .ok u
  match step1 with
  | .error m => mkChainError m
  | .ok u2 =>
    let step2 : Except String String :=
      if includes u2 "hubdrive" then env.hubdrive u2 else .ok u2
    match step2 with
    | .error m => mkChainError m
    | .ok u3 =>
      if includes u3 "hubcloud" || includes u3 "hubcdn" then
        match env.hubcloud u3 with
        | .ok r =>
          { status := "done", finalLink := some r.best_download_link, error := none,
            best_button_name := r.best_button_name,
            all_available_buttons := r.all_available_buttons }
        | .error m => mkChainError m
      else if includes u3 "gdflix" || includes u3 "drivehub" then mkChainDone u3
      else mkChainError "No solver matched for this URL"

/-- `solveWork`: the hubcdn.fans shortcut, then the timer-bypass loop, then
the post-loop resolvers. -/
def solveWork (env : SolveEnv) (url : String) : ChainResult × List String :=
  if includes url "hubcdn.fans" then
    match env.hubcdn url with
    | .ok f => (mkChainDone f, [])
    | .error m => (mkChainError m, [])
  else
    let r := timerLoop env 3 0 url
    (afterLoop env r.1, r.2)

/-- A concrete environment whose VPS timer oracle hops a timer-family url
to a url in no known family, and that one to a gdflix url. -/
def c5Env : SolveEnv :=
  { hubcdn := fun _ => Except.error "unused",
    gadgets := fun _ => Except.error "unused",
    timer := fun u =>
      if u = "http://review-tech.x/a" then some "http://pl.x/q"
      else if u = "http://pl.x/q" then some "http://gdflix.x/r"
      else none,
    hblinks := fun _ => Except.error "unused",
    hubdrive := fun _ => Except.error "unused",
    hubcloud := fun _ => Except.error "unused" }

/-! ## Transient-error fetch retry (lib/solvers.ts, `axiosWithRetry`) and
the hblinks hop resolver (`solveHBLinks`).  A fetch oracle maps the
attempt number to a response or an error. -/

/-- A fetch failure: an HTTP error response or any other error. -/
inductive FetchErr
  | http (status : Nat)
  | netw (msg : String)
deriving DecidableEq, Repr

/-- `[522, 502, 503, 504].includes(err.response.status)`. -/
def isTransient : FetchErr → Bool
  | .http s => [522, 502, 503, 504].contains s
  | .netw _ => false

/-- A successful HTTP response: status plus the page's anchor hrefs in
document order (the cheerio `a[href*=...]` selectors read these). -/
structure FetchResp where
  status : Nat
  anchors : List String
deriving DecidableEq, Repr

/-- The axios error message. -/
def fetchErrMessage : FetchErr → String
  | .http s => "Request failed with status code " ++ toString s
  | .netw m => m

/-- The `for (attempt = 0; attempt <= maxRetries; attempt++)` loop of
`axiosWithRetry`, with `fuel = maxRetries + 1 - attempt`.  Transient errors
below the retry cap wait `2000 * (attempt + 1)` ms and continue; anything
else is thrown.  Returns the outcome, the backoff waits performed, and the
number of fetches issued. -/
def axiosRetryAux (resp : Nat → Except FetchErr FetchResp) (maxRetries : Nat) :
    Nat → Nat → List Nat → Nat → Except FetchErr FetchResp × List Nat × Nat
  | 0, _, waits, fetches => (.error (.netw "loop exhausted"), waits, fetches)
  | fuel + 1, attempt, waits, fetches =>
    match resp attempt with
    | .ok r => (.ok r, waits, fetches + 1)
    | .error e =>
      if isTransient e = true ∧ attempt < maxRetries then
        axiosRetryAux resp maxRetries fuel (attempt + 1)
          (waits ++ [2000 * (attempt + 1)]) (fetches + 1)
      else (.error e, waits, fetches + 1)

/-- `axiosWithRetry(url, options, maxRetries)`. -/
def axiosWithRetry (resp : Nat → Except FetchErr FetchResp) (maxRetries : Nat) :
    Except FetchErr FetchResp × List Nat × Nat :=
  axiosRetryAux resp maxRetries (maxRetries + 1) 0 [] 0

/-- `solveHBLinks` result shape. -/
structure HBLinksResult where
  status : String
  link : Option String
  source : Option String
  message : Option String
deriving DecidableEq, Repr

/-- The `for (const tld of tlds)` selector loops: first anchor containing
`base ++ tld`, scanning tlds in order. -/
def findTldAnchor (anchors : List String) (base : String) :
    List String → Option (String × String)
  | [] => none
  | tld :: rest =>
    match anchors.find? (fun a => includes a (base ++ tld)) with
    | some href => some (href, tld)
    | none => findTldAnchor anchors base rest

/-- `solveHBLinks` applied to the outcome of its single `axios.get` call:
non-200 → fail; hubcloud tlds, then hubdrive tlds, then a generic
hubcloud/hubdrive anchor; any thrown fetch error → status `'error'`. -/
def solveHBLinks (fetched : Except FetchErr FetchResp) : HBLinksResult :=
  match fetched with
  | .error e =>
    { status := "error", link := none, source := none,
      message := some (fetchErrMessage e) }
  | .ok resp =>
    if ¬ resp.status = 200 then
      { status := "fail", link := none, source := none,
        message := some ("HTTP " ++ toString resp.status) }
    else
      match findTldAnchor resp.anchors "hubcloud" HUBCLOUD_TLDS with
      | some (href, tld) =>
        { status := "success", link := some href,
          source := some ("HubCloud" ++ tld ++ " (P1)"), message := none }
      | none =>
        match findTldAnchor resp.anchors "hubdrive" HUBDRIVE_TLDS with
        | some (href, tld) =>
          { status := "success", link := some href,
            source := some ("HubDrive" ++ tld ++ " (P2)"), message := none }
        | none =>
          match resp.anchors.find?
              (fun a => includes a "hubcloud" || includes a "hubdrive") with
          | some href =>
            { status := "success", link := some href,
              source := some "Generic (P3)", message := none }
          | none =>
            { status := "fail", link := none, source := none,
              message := some "No HubCloud or HubDrive link found" }

/-- `solveHBLinks` run against a response sequence: it performs exactly one
page fetch — `axios.get`, not `axiosWithRetry` — so only the first response
is ever consumed. -/
def solveHBLinksRun (resp : Nat → Except FetchErr FetchResp) : HBLinksResult × Nat :=
  (solveHBLinks (resp 0), 1)

/-- A fetch sequence answering HTTP 522 twice, then 200 with a hubcloud
anchor. -/
def r522 : Nat → Except FetchErr FetchResp := fun n =>
  if n < 2 then Except.error (FetchErr.http 522)
  else Except.ok { status := 200, anchors := ["https://hubcloud.foo/x"] }

/-! ## Time-budgeted sequential loop (the `timerPromise` loop of both the
solve_task POST handler and the cron GET handler).  A sequenced link is a
triple: its id, the wall-clock duration its `processLink` call takes, and
the terminal status that call writes.  The clock is checked before each
link starts; once `now - overallStart > TIME_BUDGET_MS`, every remaining
(not-yet-started) link is written back as `'pending'` and the loop stops. -/

/-- The sequential loop: returns the per-link status writes in order. -/
def timerSeqLoop (start : Nat) : Nat → List (Nat × Nat × String) → List (Nat × String)
  | _, [] => []
  | now, it :: rest =>
    if TIME_BUDGET_MS < now - start then
      (it :: rest).map fun x => (x.1, "pending")
    else (it.1, it.2.2) :: timerSeqLoop start (now + it.2.1) rest

/-- The index of the first sequenced link that is deferred (equals the list
length when the budget never expires). -/
def cutIndex (start : Nat) : Nat → List (Nat × Nat × String) → Nat
  | _, [] => 0
  | now, it :: rest =>
    if TIME_BUDGET_MS < now - start then 0
    else cutIndex start (now + it.2.1) rest + 1

/-! ## Stuck-task recovery over `scraping_tasks` (part B of
`recoverStuckTasks`). -/

/-- A `scraping_tasks` document (fields recovery looks at). -/
structure TaskRec where
  status : String
  processingStartedAt : Option Nat
  createdAt : Option Nat
  links : List LinkRec
deriving DecidableEq, Repr

/-- `startedAt = data.processingStartedAt || data.createdAt`;
`ageMs = startedAt ? now - startedAt : 0`. -/
def taskAge (now : Nat) (t : TaskRec) : Nat :=
  match t.processingStartedAt.orElse fun _ => t.createdAt with
  | none => 0
  | some s => now - s

/-- The per-link reset applied when a stuck task still has non-terminal
links: `!l.status || ['pending','processing',''].includes(l.status)`
(case-sensitive) becomes an `'error'` with the recovery annotation. -/
def recoveryResetLink (l : LinkRec) : LinkRec :=
  if l.status = "" ∨ ["pending", "processing", ""].contains l.status = true then
    { l with status := "error", error := some "Task stuck >10min — auto-recovered" }
  else l

/-- Part B of `recoverStuckTasks` for one task document: only `'processing'`
tasks older than the threshold are touched.  If all links are terminal
(and there is at least one), the task status is finalized purely from link
states (`'completed'` iff every link succeeded — links untouched);
otherwise every non-terminal link is forced to `'error'` and the task is
marked `'failed'`. -/
def recoverTask (now : Nat) (t : TaskRec) : TaskRec :=
  if ¬ t.status = "processing" then t
  else if ¬ STUCK_TASK_THRESHOLD_MS < taskAge now t then t
  else
    let allTerminal := !t.links.isEmpty && t.links.all fun l => isTerminal l.status
    let allSuccess := allTerminal && t.links.all fun l => isSuccess l.status
    if allTerminal then
      { t with status := if allSuccess then "completed" else "failed" }
    else
      { t with links := t.links.map recoveryResetLink, status := "failed" }

/-! ## Result consistency overlay (dashboard component, `startLiveStream`'s
NDJSON handler and `fetchTasks`'s shield merge). -/

/-- A shield record: the stream-observed result held in
`completedLinksRef`. -/
structure ShieldEntry where
  status : String
  finalLink : Option String
deriving DecidableEq, Repr

/-- One parsed NDJSON stream message for a link (log text omitted). -/
structure StreamMsg where
  status : Option String
  final : Option String
deriving DecidableEq, Repr

/-- The consumer's per-link view while streaming. -/
structure LinkStreamState where
  currentStatus : String
  currentLink : Option String
  shield : Option ShieldEntry
deriving DecidableEq, Repr

/-- One stream message applied to a link's state: `data.final` updates the
current link; `data.status` of `'done'`/`'error'` records the terminal
status and writes the shield entry (`finalLink: data.final ||
currentLinks[lid]`); `'finished'` writes an `'error'` shield entry only if
no terminal status was observed.  `streamStep1` is the `data.final`
handler that runs first in the same message. -/
def streamStep1 (st : LinkStreamState) (m : StreamMsg) : LinkStreamState :=
  match m.final with
  | some f => { st with currentLink := some f }
  | none => st

def applyStreamMsg (st : LinkStreamState) (m : StreamMsg) : LinkStreamState :=
  match m.status with
  | some "done" =>
    { streamStep1 st m with currentStatus := "done", shield := some ⟨"done", m.final.orElse fun _ => (streamStep1 st m).currentLink⟩ }
  | some "error" =>
    { streamStep1 st m with currentStatus := "error", shield := some ⟨"error", m.final.orElse fun _ => (streamStep1 st m).currentLink⟩ }
  | some "finished" =>
    if ¬ (streamStep1 st m).currentStatus = "done" ∧ ¬ (streamStep1 st m).currentStatus = "error" then
      { streamStep1 st m with shield := some ⟨"error", none⟩ }
    else streamStep1 st m
  | _ => streamStep1 st m

/-- A whole stream for one link. -/
def runStream (st : LinkStreamState) (ms : List StreamMsg) : LinkStreamState :=
  ms.foldl applyStreamMsg st

/-- `endedAt && now - endedAt < 15000`: the 15s grace period after the
stream for the task ended. -/
def isRecentlyEnded (now : Nat) (endedAt : Option Nat) : Bool :=
  match endedAt with
  | none => false
  | some e => now - e < 15000

/-- `(fbLink.status || '').toLowerCase()` is pending/processing/empty. -/
def isFbPendingStatus (s : String) : Bool :=
  toLowerStr s = "pending" || toLowerStr s = "processing" || toLowerStr s = ""

/-- The SHIELD CHECK 2 merge of `fetchTasks` for one link: when a shield
record exists and the polled status is non-terminal (or the stream ended
within the grace period), the shield's status and finalLink
(`protectedLink.finalLink || fbLink.finalLink`) win; otherwise the polled
link is used as-is. -/
def shieldFinal (pf fbf : Option String) : Option String :=
  match pf with
  | some f => if f = "" then fbf else some f
  | none => fbf

def mergeLink (shield : Option ShieldEntry) (recentlyEnded : Bool) (fb : LinkRec) : LinkRec :=
  match shield with
  | none => fb
  | some p =>
    if isFbPendingStatus fb.status = true ∨ recentlyEnded = true then
      { fb with status := p.status, finalLink := shieldFinal p.finalLink fb.finalLink }
    else fb

/-! ## Intake surface: the dashboard's `startProcess` duplicate gate and
the server's POST /api/tasks create-or-merge. -/

/-- `u.replace(/^https?:\/\//, '')`. -/
def stripProtocol (s : String) : String :=
  if ("https://".toList).isPrefixOf s.toList then String.mk (s.toList.drop 8)
  else if ("http://".toList).isPrefixOf s.toList then String.mk (s.toList.drop 7)
  else s

/-- `u.replace(/\/$/, '')`: drop a single trailing slash. -/
def stripTrailingSlash (s : String) : String :=
  if s.toList.getLast? = some '/' then String.mk s.toList.dropLast else s

/-- `startProcess`'s normalize: lowercase, strip protocol, strip trailing
slash. -/
def normalizeUrl (u : String) : String :=
  stripTrailingSlash (stripProtocol (toLowerStr u))

/-- JS truthiness of an optional string (`undefined`/`''` are falsy). -/
def optTruthy (o : Option String) : Bool :=
  match o with
  | some s => ¬ s = ""
  | none => false

/-- The 3-layer per-link status of `getEffectiveStats`: live stream status
while the task is actively streaming, else the shield record, else the
polled status. -/
def effectiveLinkStatus (isLive : Bool) (live : Option String)
    (shield : Option ShieldEntry) (fb : Option String) : String :=
  if isLive && optTruthy live then live.getD ""
  else match shield with
    | some p => p.status
    | none => fb.getD ""

/-- `'error'`/`'failed'` after lowercasing. -/
def isFailedStatus (s : String) : Bool :=
  toLowerStr s = "error" || toLowerStr s = "failed"

/-- The counts `getEffectiveStats` returns. -/
structure EffStats where
  total : Nat
  done : Nat
  failed : Nat
  pending : Nat
deriving DecidableEq, Repr

/-- Classify each effective status: done/success, error/failed, else
pending. -/
def getEffectiveStats (statuses : List String) : EffStats :=
  { total := statuses.length,
    done := (statuses.filter fun s => isSuccess s).length,
    failed := (statuses.filter fun s => !isSuccess s && isFailedStatus s).length,
    pending := (statuses.filter fun s => !isSuccess s && !isFailedStatus s).length }

/-- `getTrueTaskStatus`: an actively-streaming task is `'processing'`; all
links settled → `'completed'` iff any done; otherwise the polled task
status. -/
def getTrueTaskStatus (isActive : Bool) (fbStatus : String) (stats : EffStats) : String :=
  if isActive then "processing"
  else if 0 < stats.total ∧ stats.pending = 0 then
    (if 0 < stats.done then "completed" else "failed")
  else fbStatus

/-- What the gate needs to know about one task in the dashboard list: id,
url, whether its stream is active, its polled status, and per link the
(live, shield, polled) status sources. -/
structure TaskView where
  id : String
  url : String
  isActive : Bool
  fbStatus : String
  links : List (Option String × Option ShieldEntry × Option String)
deriving DecidableEq, Repr

/-- The task's effective per-link statuses. -/
def taskEffStats (tv : TaskView) : EffStats :=
  getEffectiveStats (tv.links.map fun l => effectiveLinkStatus tv.isActive l.1 l.2.1 l.2.2)

/-- The status the duplicate check sees. -/
def taskTrueStatus (tv : TaskView) : String :=
  getTrueTaskStatus tv.isActive tv.fbStatus (taskEffStats tv)

/-- What `startProcess` decides before any network call. -/
inductive SubmitDecision
  | ignored
  | showCompleted (taskId : String)
  | stillProcessing (taskId : String)
  | dispatch (url : String)
deriving DecidableEq, Repr

/-- The duplicate gate of `startProcess`: empty input is ignored; a
duplicate (by normalized url) that derives `'completed'` shows the existing
result; a duplicate deriving `'processing'` is rejected with the
still-processing signal; otherwise the url is dispatched to POST
/api/tasks. -/
def startProcessGate (tasks : List TaskView) (url : String) : SubmitDecision :=
  if trimStr url = "" then .ignored
  else
    match tasks.find? (fun t => normalizeUrl t.url == normalizeUrl (trimStr url)) with
    | some dup =>
      if taskTrueStatus dup = "completed" then .showCompleted dup.id
      else if taskTrueStatus dup = "processing" then .stillProcessing dup.id
      else .dispatch (trimStr url)
    | none => .dispatch (trimStr url)

/-- The extraction collaborator's outcome: candidate (name, url) pairs or a
failure. -/
inductive ExtractOutcome
  | success (links : List (String × String))
  | failure (msg : String)
deriving DecidableEq, Repr

/-- A `scraping_tasks` document as POST /api/tasks writes it. -/
structure TaskDoc where
  url : String
  status : String
  links : List LinkRec
deriving DecidableEq, Repr

/-- What POST /api/tasks did: merged into the existing task for that url,
or created a new document. -/
inductive PostOutcome
  | mergedInto (taskId : String) (doc : TaskDoc)
  | created (doc : TaskDoc)
deriving DecidableEq, Repr

/-- The merge path of POST /api/tasks: errored/failed links reset to
pending, truly-new urls appended with ids continuing past the max existing
id. -/
def mergeLinks (existingLinks : List LinkRec) (newLinks : List (String × String)) :
    List LinkRec :=
  let updatedExisting := existingLinks.map fun l =>
    if l.status = "error" ∨ l.status = "failed" then { l with status := "pending" } else l
  let existingUrls := existingLinks.map fun l => l.link
  let trulyNew := newLinks.filter fun nl => ¬ existingUrls.contains nl.2
  let base := if existingLinks.isEmpty then 0
    else ((existingLinks.map fun l => l.id).foldl max 0) + 1
  updatedExisting ++ trulyNew.enum.map fun p => ⟨base + p.1, p.2.2, "pending", none, none⟩

/-- POST /api/tasks: with an existing task for the url the result is merged
into that task (same id — extraction failure returns it untouched);
otherwise a new document is created (`'pending'` with freshly-numbered
links, or `'failed'` when extraction produced none). -/
def postTasks (existing : Option (String × TaskDoc)) (extraction : ExtractOutcome)
    (url : String) : PostOutcome :=
  match existing with
  | some (tid, doc) =>
    match extraction with
    | .success newLinks =>
      if ¬ newLinks.isEmpty then
        .mergedInto tid { doc with status := "pending", links := mergeLinks doc.links newLinks }
      else .mergedInto tid doc
    | .failure _ => .mergedInto tid doc
  | none =>
    match extraction with
    | .success newLinks =>
      if ¬ newLinks.isEmpty then
        .created { url := trimStr url, status := "pending",
                   links := newLinks.enum.map fun p => ⟨p.1, p.2.2, "pending", none, none⟩ }
      else .created { url := trimStr url, status := "failed", links := [] }
    | .failure _ => .created { url := trimStr url, status := "failed", links := [] }

/-! ## Theorems -/

/-- C1: for every persisted link-result write (`saveResultToFirestore`), the
parent task's aggregate status is recomputed as a pure function of its links'
states: `"processing"` iff some link is non-terminal, `"completed"` iff all
links are terminal (done/success/error/failed) and at least one succeeded,
and `"failed"` iff all links are terminal and none succeeded — for every
combination of link states in {pending, done, error}. -/
theorem c1_task_status_pure_function
    (links : List LinkRec) (lid : Nat) (url : String) (r : SaveResult)
    (_hdom : ∀ l ∈ (saveResultToFirestore links lid url r).1,
      l.status = "pending" ∨ l.status = "done" ∨ l.status = "error") :
    ((saveResultToFirestore links lid url r).2 = "processing" ↔
      ∃ l ∈ (saveResultToFirestore links lid url r).1, isTerminal l.status = false) ∧
    ((saveResultToFirestore links lid url r).2 = "completed" ↔
      (∀ l ∈ (saveResultToFirestore links lid url r).1, isTerminal l.status = true) ∧
      ∃ l ∈ (saveResultToFirestore links lid url r).1, isSuccess l.status = true) ∧
    ((saveResultToFirestore links lid url r).2 = "failed" ↔
      (∀ l ∈ (saveResultToFirestore links lid url r).1, isTerminal l.status = true) ∧
      ¬ ∃ l ∈ (saveResultToFirestore links lid url r).1, isSuccess l.status = true) := by
  simp only [saveResultToFirestore, deriveTaskStatus]
  set L := links.map (applyResult lid url r) with hL
  by_cases hall : ∀ l ∈ L, isTerminal l.status = true
  · rw [if_pos (List.all_eq_true.mpr hall)]
    by_cases hany : ∃ l ∈ L, isSuccess l.status = true
    · rw [if_pos (List.any_eq_true.mpr hany)]
      refine ⟨⟨fun h => absurd h (by decide), ?_⟩,
        ⟨fun _ => ⟨hall, hany⟩, fun _ => rfl⟩,
        ⟨fun h => absurd h (by decide), ?_⟩⟩
      · rintro ⟨l, hl, hnt⟩
        rw [hall l hl] at hnt
        exact absurd hnt (by decide)
      · rintro ⟨-, hno⟩
        exact absurd hany hno
    · rw [if_neg (fun hc => hany (List.any_eq_true.mp hc))]
      refine ⟨⟨fun h => absurd h (by decide), ?_⟩,
        ⟨fun h => absurd h (by decide), ?_⟩,
        ⟨fun _ => ⟨hall, hany⟩, fun _ => rfl⟩⟩
      · rintro ⟨l, hl, hnt⟩
        rw [hall l hl] at hnt
        exact absurd hnt (by decide)
      · rintro ⟨-, he⟩
        exact absurd he hany
  · rw [if_neg (fun hc => hall (List.all_eq_true.mp hc))]
    push_neg at hall
    obtain ⟨l, hl, hnt⟩ := hall
    have hnt' : isTerminal l.status = false := by
      cases h : isTerminal l.status
      · rfl
      · exact absurd h hnt
    refine ⟨⟨fun _ => ⟨l, hl, hnt'⟩, fun _ => rfl⟩,
      ⟨fun h => absurd h (by decide), ?_⟩,
      ⟨fun h => absurd h (by decide), ?_⟩⟩
    · rintro ⟨hterm, -⟩
      rw [hterm l hl] at hnt'
      exact absurd hnt' (by decide)
    · rintro ⟨hterm, -⟩
      rw [hterm l hl] at hnt'
      exact absurd hnt' (by decide)

/-- C2 counterexample: the claim predicts that a run with a deferred link
finalizes the queue item as `"failed"` and that a failed terminal outcome
increments retryCount.  On the code, a deferred run writes `"pending"`
(retryCount untouched), and a run with 2 failed links out of 5 writes
`"failed"` while leaving retryCount at its old value 1. -/
theorem c2_counterexample :
    (cronQueueItemUpdate true 0 0 5 0).1 = "pending" ∧
    ¬ (cronQueueItemUpdate true 0 0 5 0).1 = "failed" ∧
    cronQueueItemUpdate false 2 3 5 1 = ("failed", 1) := by decide

/-- C2 (amended): at the end of a cron run the claimed queue item is
`"completed"` iff no link was deferred, no link failed, and every
originally-pending link ended done; a deferred run re-queues the item as
`"pending"`; a non-deferred run with any failure ends `"failed"`; in all
three branches the stored retryCount is written back unchanged.  The
retryCount is incremented (by exactly 1) only on the link-extraction
failure path — permanent failure there once `MAX_CRON_RETRIES` (3) is
reached — and by stuck-work recovery, which permanently fails a stale
processing item whose retryCount already reached the cap and never touches
an item already `"failed"`. -/
theorem c2_queue_item_finalization_amended
    (defer : Bool) (errorCount doneCount pendingCount retryCount now : Nat)
    (q : QueueItemRec) :
    (cronQueueItemUpdate defer errorCount doneCount pendingCount retryCount
        = ("completed", retryCount) ↔
      defer = false ∧ errorCount = 0 ∧ doneCount = pendingCount) ∧
    (defer = true →
      cronQueueItemUpdate defer errorCount doneCount pendingCount retryCount
        = ("pending", retryCount)) ∧
    (defer = false → ¬ (errorCount = 0 ∧ doneCount = pendingCount) →
      cronQueueItemUpdate defer errorCount doneCount pendingCount retryCount
        = ("failed", retryCount)) ∧
    ((cronQueueItemUpdate defer errorCount doneCount pendingCount retryCount).2
        = retryCount) ∧
    (cronExtractionFailureUpdate retryCount
        = (if MAX_CRON_RETRIES ≤ retryCount then "failed" else "pending",
           retryCount + 1)) ∧
    (q.status = "processing" → queueIsStale now q = true →
      MAX_CRON_RETRIES ≤ q.retryCount →
      (recoverQueueItem now q).status = "failed") ∧
    (q.status = "failed" → recoverQueueItem now q = q) := by
  refine ⟨?_, ?_, ?_, ?_, ?_, ?_, ?_⟩
  · constructor
    · intro hEq
      cases hd : defer
      · by_cases h : errorCount = 0 ∧ doneCount = pendingCount
        · exact ⟨rfl, h⟩
        · rw [hd] at hEq
          unfold cronQueueItemUpdate at hEq
          rw [if_neg (by decide), if_neg h] at hEq
          have hx : ("failed" : String) = "completed" := congrArg Prod.fst hEq
          exact absurd hx (by decide)
      · rw [hd] at hEq
        unfold cronQueueItemUpdate at hEq
        rw [if_pos rfl] at hEq
        have hx : ("pending" : String) = "completed" := congrArg Prod.fst hEq
        exact absurd hx (by decide)
    · rintro ⟨hd, h⟩
      subst hd
      unfold cronQueueItemUpdate
      rw [if_neg (by decide), if_pos h]
  · intro h
    subst h
    rfl
  · intro h hne
    subst h
    simp only [cronQueueItemUpdate, if_neg hne, Bool.false_eq_true, if_false]
  · simp only [cronQueueItemUpdate]
    split
    · rfl
    · split <;> rfl
  · simp only [cronExtractionFailureUpdate]
    split <;> simp_all
  · intro hst hstale hcap
    simp only [recoverQueueItem, hst]
    rw [if_neg (by simp), if_neg (by simp [hstale]),
      if_pos (by omega)]
  · intro hst
    simp only [recoverQueueItem, hst]
    rw [if_pos (by decide)]

/-- Witness for C2 (amended) at concrete inputs: a deferred run
(defer = true) and a clean run (defer = false, 0 errors, 3/3 done), plus a
stale processing queue item at the retry cap and an already-failed item. -/
theorem c2_queue_item_finalization_amended_witness :
    cronQueueItemUpdate true 0 0 3 2 = ("pending", 2) ∧
    cronQueueItemUpdate false 0 3 3 2 = ("completed", 2) ∧
    (recoverQueueItem 700000 ⟨"processing", some 0, none, none, 3, none⟩).status
      = "failed" ∧
    recoverQueueItem 700000 ⟨"failed", some 0, none, none, 3, none⟩
      = ⟨"failed", some 0, none, none, 3, none⟩ := by
  refine ⟨?_, ?_, ?_, ?_⟩
  · exact (c2_queue_item_finalization_amended true 0 0 3 2 0
      ⟨"failed", none, none, none, 0, none⟩).2.1 rfl
  · exact (c2_queue_item_finalization_amended false 0 3 3 2 0
      ⟨"failed", none, none, none, 0, none⟩).1.mpr ⟨rfl, rfl, rfl⟩
  · exact (c2_queue_item_finalization_amended false 0 0 0 0 700000
      ⟨"processing", some 0, none, none, 3, none⟩).2.2.2.2.2.1 rfl (by decide)
      (by decide)
  · exact (c2_queue_item_finalization_amended false 0 0 0 0 700000
      ⟨"failed", some 0, none, none, 3, none⟩).2.2.2.2.2.2 rfl

/-- Helper: one attempt runs the chain at most once. -/
theorem processAttempt_chainRuns_le_one (c : Option String) (ch : ChainOutcome) :
    (processAttempt c ch).2 ≤ 1 := by
  cases c with
  | none => simp [processAttempt]
  | some f =>
    by_cases hf : f = "" <;> simp [processAttempt, hf]

/-- C3 counterexample: the claim says the cache is not consulted again
during the automatic retry.  On the code, a failed first attempt re-enters
`processLink` from the top: with a cache miss then a chain timeout on
attempt 1 and a cache entry appearing before attempt 2, the retry consults
the cache a second time and even returns `"done"` from it. -/
theorem c3_counterexample :
    (processLink
      { cacheAt := fun n => if n = 2 then some "https://cdn.example/f" else none,
        chainAt := fun _ => ChainOutcome.timesOut }).cacheConsults = 2 ∧
    (processLink
      { cacheAt := fun n => if n = 2 then some "https://cdn.example/f" else none,
        chainAt := fun _ => ChainOutcome.timesOut }).result.status = "done" := by
  decide

/-- C3 (amended): (a) a usable cache hit on attempt 1 short-circuits to a
`"done"` result with zero chain executions and a single cache consult;
(b) the chain is raced against the fixed 20s timer and a timeout becomes a
chain failure (`'Timed out after 20s'`); (c) on any attempt-1 failure there
is exactly one automatic retry, which re-enters the processor from the top,
so the cache IS consulted again (2 consults) and the retry's outcome is
final; a non-failed attempt 1 is final with one cache consult; the chain
never runs more than twice. -/
theorem c3_link_processor_amended (env : ProcessEnv) (f : String) :
    (env.cacheAt 1 = some f → ¬ f = "" →
      processLink env =
        { result := { status := "done", finalLink := some f, error := none },
          cacheConsults := 1, chainRuns := 0 }) ∧
    (raceResult ChainOutcome.timesOut =
      { status := "error", finalLink := none, error := some "Timed out after 20s" }) ∧
    (env.cacheAt 1 = none → (raceResult (env.chainAt 1)).status = "error" →
      (processLink env).cacheConsults = 2 ∧
      (processLink env).result = (processAttempt (env.cacheAt 2) (env.chainAt 2)).1) ∧
    (¬ (processAttempt (env.cacheAt 1) (env.chainAt 1)).1.status = "error" →
      processLink env =
        { result := (processAttempt (env.cacheAt 1) (env.chainAt 1)).1,
          cacheConsults := 1,
          chainRuns := (processAttempt (env.cacheAt 1) (env.chainAt 1)).2 }) ∧
    (processLink env).chainRuns ≤ 2 := by
  refine ⟨?_, by decide, ?_, ?_, ?_⟩
  · intro hc hf
    unfold processLink processAttempt
    rw [hc]
    simp only [if_pos hf]
    rw [if_neg (by decide)]
  · intro hc herr
    have hcond : (processAttempt (env.cacheAt 1) (env.chainAt 1)).1.status = "error" := by
      rw [hc]
      exact herr
    simp only [processLink]
    rw [if_pos hcond]
    exact ⟨rfl, rfl⟩
  · intro hok
    simp only [processLink]
    rw [if_neg hok]
  · have h1 := processAttempt_chainRuns_le_one (env.cacheAt 1) (env.chainAt 1)
    have h2 := processAttempt_chainRuns_le_one (env.cacheAt 2) (env.chainAt 2)
    simp only [processLink]
    split
    · simp only
      omega
    · simp only
      omega

/-- Witness for C3 (amended) at concrete environments: a cache-hit run and
a miss-then-timeout run. -/
theorem c3_link_processor_amended_witness :
    processLink
      { cacheAt := fun _ => some "https://cdn.example/f",
        chainAt := fun _ => ChainOutcome.timesOut } =
      { result := { status := "done", finalLink := some "https://cdn.example/f",
                    error := none },
        cacheConsults := 1, chainRuns := 0 } ∧
    (processLink
      { cacheAt := fun _ => none,
        chainAt := fun _ => ChainOutcome.timesOut }).cacheConsults = 2 := by
  constructor
  · exact (c3_link_processor_amended
      { cacheAt := fun _ => some "https://cdn.example/f",
        chainAt := fun _ => ChainOutcome.timesOut } "https://cdn.example/f").1
      rfl (by decide)
  · exact ((c3_link_processor_amended
      { cacheAt := fun _ => none,
        chainAt := fun _ => ChainOutcome.timesOut } "").2.2.1
      rfl (by decide)).1

/-- C4: `store(u, f)` immediately followed by `lookup(u)` returns `f`, and
the stored entry's hitCount goes from 0 to exactly 1; an entry past its
`expiresAt` is never served — the lookup misses and lazily marks it
`'expired'` — and a live entry marked `'broken'` also behaves as a miss
(store untouched). -/
theorem c4_cache_roundtrip_and_miss
    (store : CacheStore) (u f s : String) (now : Nat) (e : CachedLink) :
    ((setCachedLink store u f s now) (hashUrl u)).map (fun x => x.hitCount)
      = some 0 ∧
    ((getCachedLink (setCachedLink store u f s now) u now).1).map
      (fun x => x.finalLink) = some f ∧
    (((getCachedLink (setCachedLink store u f s now) u now).2) (hashUrl u)).map
      (fun x => x.hitCount) = some 1 ∧
    (store (hashUrl u) = some e → e.expiresAt < now →
      (getCachedLink store u now).1 = none ∧
      ((getCachedLink store u now).2 (hashUrl u)).map (fun x => x.status)
        = some "expired") ∧
    (store (hashUrl u) = some e → ¬ e.expiresAt < now → e.status = "broken" →
      (getCachedLink store u now).1 = none ∧ (getCachedLink store u now).2 = store) := by
  have hset : (setCachedLink store u f s now) (hashUrl u)
      = some { originalUrl := u, finalLink := f, solverUsed := s, resolvedAt := now,
               expiresAt := now + CACHE_EXPIRY_MS, hitCount := 0,
               status := "valid", lastHitAt := none } := by
    unfold setCachedLink
    rw [if_pos rfl]
  have hget : getCachedLink (setCachedLink store u f s now) u now
      = (some { originalUrl := u, finalLink := f, solverUsed := s, resolvedAt := now,
                expiresAt := now + CACHE_EXPIRY_MS, hitCount := 0,
                status := "valid", lastHitAt := none },
         fun k => if k = hashUrl u then
            some { originalUrl := u, finalLink := f, solverUsed := s, resolvedAt := now,
                   expiresAt := now + CACHE_EXPIRY_MS, hitCount := 1,
                   status := "valid", lastHitAt := some now }
          else (setCachedLink store u f s now) k) := by
    unfold getCachedLink
    rw [hset]
    simp only
    rw [if_neg (by omega), if_neg (by simp)]
  refine ⟨?_, ?_, ?_, ?_, ?_⟩
  · rw [hset]
    rfl
  · rw [hget]
    rfl
  · rw [hget]
    simp
  · intro he hexp
    unfold getCachedLink
    rw [he]
    simp only
    rw [if_pos hexp]
    exact ⟨rfl, by simp⟩
  · intro he hexp hbr
    unfold getCachedLink
    rw [he]
    simp only
    rw [if_neg hexp, if_pos (by rw [hbr]; decide)]
    exact ⟨rfl, rfl⟩

/-- Witness for C4 at concrete inputs: an empty store with one fresh entry,
an expired entry, and a broken entry. -/
theorem c4_cache_roundtrip_and_miss_witness :
    ((getCachedLink (setCachedLink (fun _ => none) "https://A.example/x " "final" "s" 5)
      "https://A.example/x " 5).1).map (fun x => x.finalLink) = some "final" ∧
    (getCachedLink
      (fun k => if k = hashUrl "u" then
          some ⟨"u", "f", "s", 0, 3, 0, "valid", none⟩ else none)
      "u" 10).1 = none ∧
    (getCachedLink
      (fun k => if k = hashUrl "u" then
          some ⟨"u", "f", "s", 0, 99, 0, "broken", none⟩ else none)
      "u" 10).1 = none := by
  refine ⟨?_, ?_, ?_⟩
  · exact (c4_cache_roundtrip_and_miss (fun _ => none) "https://A.example/x " "final" "s" 5
      ⟨"", "", "", 0, 0, 0, "", none⟩).2.1
  · exact ((c4_cache_roundtrip_and_miss
      (fun k => if k = hashUrl "u" then
          some ⟨"u", "f", "s", 0, 3, 0, "valid", none⟩ else none)
      "u" "f" "s" 10 ⟨"u", "f", "s", 0, 3, 0, "valid", none⟩).2.2.2.1
      (by rw [if_pos rfl]) (by decide)).1
  · exact ((c4_cache_roundtrip_and_miss
      (fun k => if k = hashUrl "u" then
          some ⟨"u", "f", "s", 0, 99, 0, "broken", none⟩ else none)
      "u" "f" "s" 10 ⟨"u", "f", "s", 0, 99, 0, "broken", none⟩).2.2.2.2
      (by rw [if_pos rfl]) (by decide) rfl).1

/-- C5 counterexample: the claim says the bypass loop runs only while the
current url matches a timer host family.  On the code the timer-family
check applies only when the hop counter is 0: starting from a
review-tech url whose first hop lands on `http://pl.x/q` (no timer
family), the loop still invokes the bypass on that url. -/
theorem c5_counterexample :
    (solveWork c5Env "http://review-tech.x/a").2.contains "http://pl.x/q" = true ∧
    timerDomainHit "http://pl.x/q" = false := by decide

/-- C5 (amended): the sequenced-bypass loop runs while the per-chain hop
counter is below 3 and the current url is not a target domain; the
timer-host-family requirement is enforced only on entry (counter 0) — after
a successful hop the loop continues on any non-target url, even one not in
a timer family; each successful hop replaces the current url and increments
the counter; a failed hop stops the loop with the url unchanged; and a
post-loop url matching no resolver stage fails with
`'No solver matched for this URL'`. -/
theorem c5_sequenced_bypass_amended (env : SolveEnv) (u nxt m : String) (fuel lc : Nat) :
    (timerLoop env 0 lc u = (u, [])) ∧
    (targetDomainHit u = true → timerLoop env (fuel + 1) lc u = (u, [])) ∧
    (targetDomainHit u = false → timerDomainHit u = false →
      timerLoop env (fuel + 1) 0 u = (u, [])) ∧
    (targetDomainHit u = false → (timerDomainHit u = true ∨ ¬ lc = 0) →
      includes u "gadgetsweb" = false → env.timer u = none →
      timerLoop env (fuel + 1) lc u = (u, [])) ∧
    (targetDomainHit u = false → (timerDomainHit u = true ∨ ¬ lc = 0) →
      includes u "gadgetsweb" = false → env.timer u = some nxt →
      timerLoop env (fuel + 1) lc u
        = ((timerLoop env fuel (lc + 1) nxt).1,
           u :: (timerLoop env fuel (lc + 1) nxt).2)) ∧
    (targetDomainHit u = false → (timerDomainHit u = true ∨ ¬ lc = 0) →
      includes u "gadgetsweb" = true → env.gadgets u = Except.error m →
      timerLoop env (fuel + 1) lc u = (u, [])) ∧
    (targetDomainHit u = false → (timerDomainHit u = true ∨ ¬ lc = 0) →
      includes u "gadgetsweb" = true → env.gadgets u = Except.ok nxt →
      timerLoop env (fuel + 1) lc u
        = ((timerLoop env fuel (lc + 1) nxt).1,
           u :: (timerLoop env fuel (lc + 1) nxt).2)) ∧
    (includes u "hblinks" = false → includes u "hubdrive" = false →
      includes u "hubcloud" = false → includes u "hubcdn" = false →
      includes u "gdflix" = false → includes u "drivehub" = false →
      afterLoop env u = mkChainError "No solver matched for this URL") := by
  have hbreak : ∀ (h2 : timerDomainHit u = true ∨ ¬ lc = 0),
      ¬ (¬ timerDomainHit u = true ∧ lc = 0) := by
    intro h2 hc
    rcases h2 with h2 | h2
    · exact hc.1 h2
    · exact h2 hc.2
  refine ⟨rfl, ?_, ?_, ?_, ?_, ?_, ?_, ?_⟩
  · intro ht
    rw [timerLoop, if_pos ht]
  · intro ht htd
    rw [timerLoop, if_neg (by simp [ht]), if_pos ⟨by simp [htd], rfl⟩]
  · intro ht h2 hg htm
    rw [timerLoop, if_neg (by simp [ht]), if_neg (hbreak h2), if_neg (by simp [hg]), htm]
  · intro ht h2 hg htm
    rw [timerLoop, if_neg (by simp [ht]), if_neg (hbreak h2), if_neg (by simp [hg]), htm]
  · intro ht h2 hg hgr
    rw [timerLoop, if_neg (by simp [ht]), if_neg (hbreak h2), if_pos (by simp [hg]), hgr]
  · intro ht h2 hg hgr
    rw [timerLoop, if_neg (by simp [ht]), if_neg (hbreak h2), if_pos (by simp [hg]), hgr]
  · intro h1 h2 h3 h4 h5 h6
    unfold afterLoop
    rw [if_neg (by simp [h1])]
    simp only
    rw [if_neg (by simp [h2])]
    simp only
    rw [if_neg (by simp [h3, h4]), if_neg (by simp [h5, h6])]

/-- Witness for C5 (amended): the loop stops immediately on a gdflix
(target-family) url, and a non-family url yields the no-match error. -/
theorem c5_sequenced_bypass_amended_witness :
    timerLoop c5Env 3 0 "http://gdflix.x/r" = ("http://gdflix.x/r", []) ∧
    afterLoop c5Env "http://none.x/z"
      = mkChainError "No solver matched for this URL" := by
  constructor
  · exact (c5_sequenced_bypass_amended c5Env "http://gdflix.x/r" "" "" 2 0).2.1
      (by decide)
  · exact (c5_sequenced_bypass_amended c5Env "http://none.x/z" "" "" 0 0).2.2.2.2.2.2.2
      (by decide) (by decide) (by decide) (by decide) (by decide) (by decide)

/-- C6 counterexample: the claim says every page-fetch inside any resolver
hop is wrapped with the transient retry, so a hop fetch answering 522, 522,
then 200 succeeds after two backoff waits.  On the code, `solveHBLinks`
uses a plain un-retried `axios.get`: against that very sequence it consumes
one response and reports `'error'`, while the wrapper (used only by the
discovery fetch) would have succeeded with waits 2000 and 4000 ms. -/
theorem c6_counterexample :
    (solveHBLinksRun r522).1.status = "error" ∧
    (solveHBLinksRun r522).2 = 1 ∧
    (axiosWithRetry r522 HTTP_522_MAX_RETRIES).1
      = Except.ok { status := 200, anchors := ["https://hubcloud.foo/x"] } ∧
    (axiosWithRetry r522 HTTP_522_MAX_RETRIES).2.1 = [2000, 4000] :=
  ⟨rfl, rfl, rfl, rfl⟩

/-- C6 (amended): the transient-retry wrapper `axiosWithRetry` behaves as
described — on HTTP 522/502/503/504 it retries up to 2 additional times
with linearly increasing backoff (2s then 4s) and succeeds without a third
retry when the third response is good; non-transient errors fail
immediately with no waits; three transient errors stop after 3 fetches and
2 waits — but it wraps only the discovery page-fetch: the resolver-hop
fetch of `solveHBLinks` is a single un-retried `axios.get`, so its outcome
is a function of the first response alone. -/
theorem c6_fetch_retry_amended (resp : Nat → Except FetchErr FetchResp)
    (e e1 e2 : FetchErr) (r : FetchResp) :
    (resp 0 = Except.error e1 → isTransient e1 = true →
      resp 1 = Except.error e2 → isTransient e2 = true →
      resp 2 = Except.ok r →
      axiosWithRetry resp HTTP_522_MAX_RETRIES = (Except.ok r, [2000, 4000], 3)) ∧
    (resp 0 = Except.error e → isTransient e = false →
      axiosWithRetry resp HTTP_522_MAX_RETRIES = (Except.error e, [], 1)) ∧
    (resp 0 = Except.error e1 → isTransient e1 = true →
      resp 1 = Except.error e2 → isTransient e2 = true →
      resp 2 = Except.error e →
      axiosWithRetry resp HTTP_522_MAX_RETRIES = (Except.error e, [2000, 4000], 3)) ∧
    (resp 0 = Except.ok r →
      axiosWithRetry resp HTTP_522_MAX_RETRIES = (Except.ok r, [], 1)) ∧
    (solveHBLinksRun resp = (solveHBLinks (resp 0), 1)) := by
  have hsh : ∀ (g : Nat → Except FetchErr FetchResp),
      axiosWithRetry g HTTP_522_MAX_RETRIES = axiosRetryAux g 2 3 0 [] 0 := by
    intro g
    rfl
  refine ⟨?_, ?_, ?_, ?_, rfl⟩
  · intro h0 ht1 h1 ht2 h2
    rw [hsh, axiosRetryAux, h0]
    simp only
    rw [if_pos ⟨ht1, by omega⟩, axiosRetryAux, h1]
    simp only
    rw [if_pos ⟨ht2, by omega⟩, axiosRetryAux, h2]
    simp
  · intro h0 ht0
    rw [hsh, axiosRetryAux, h0]
    simp only
    rw [if_neg (by simp [ht0])]
  · intro h0 ht1 h1 ht2 h2
    rw [hsh, axiosRetryAux, h0]
    simp only
    rw [if_pos ⟨ht1, by omega⟩, axiosRetryAux, h1]
    simp only
    rw [if_pos ⟨ht2, by omega⟩, axiosRetryAux, h2]
    simp only
    rw [if_neg (by omega)]
    simp
  · intro h0
    rw [hsh, axiosRetryAux, h0]

/-- Witness for C6 (amended) against the concrete 522-522-200 sequence and
an immediately-fatal sequence. -/
theorem c6_fetch_retry_amended_witness :
    axiosWithRetry r522 HTTP_522_MAX_RETRIES
      = (Except.ok { status := 200, anchors := ["https://hubcloud.foo/x"] },
         [2000, 4000], 3) ∧
    axiosWithRetry (fun _ => Except.error (FetchErr.http 404)) HTTP_522_MAX_RETRIES
      = (Except.error (FetchErr.http 404), [], 1) := by
  constructor
  · exact (c6_fetch_retry_amended r522 (FetchErr.http 522) (FetchErr.http 522)
      (FetchErr.http 522) { status := 200, anchors := ["https://hubcloud.foo/x"] }).1
      rfl (by decide) rfl (by decide) rfl
  · exact (c6_fetch_retry_amended (fun _ => Except.error (FetchErr.http 404))
      (FetchErr.http 404) (FetchErr.http 404) (FetchErr.http 404)
      { status := 200, anchors := [] }).2.1 rfl (by decide)

/-- C7: in every run of the sequenced loop there is a cut index: links
before it are processed one at a time (each keeps exactly the status its
`processLink` call produced — completed links untouched), and every link
from the cut on is written back `'pending'` (a deferred checkpoint, not an
error) after the budget check that precedes each start fails; the loop
stops there, and since the budget is only checked between links, no link
already started is interrupted. -/
theorem c7_time_budget_checkpoint (start now : Nat) (items : List (Nat × Nat × String)) :
    (timerSeqLoop start now items
      = (items.take (cutIndex start now items)).map (fun it => (it.1, it.2.2))
        ++ (items.drop (cutIndex start now items)).map (fun it => (it.1, "pending"))) ∧
    ∀ p ∈ (items.drop (cutIndex start now items)).map (fun it => (it.1, "pending")),
      p.2 = "pending" := by
  constructor
  · induction items generalizing now with
    | nil => rfl
    | cons it rest ih =>
      by_cases h : TIME_BUDGET_MS < now - start
      · rw [timerSeqLoop, if_pos h, cutIndex, if_pos h]
        simp
      · rw [timerSeqLoop, if_neg h, cutIndex, if_neg h]
        simp only [List.take_succ_cons, List.drop_succ_cons, List.map_cons,
          List.cons_append]
        rw [ih]
  · intro p hp
    simp only [List.mem_map] at hp
    obtain ⟨x, -, rfl⟩ := hp
    rfl

/-- C8: stuck-work recovery only touches work parked `'processing'` past
the 10-minute threshold; a stale task whose links are all terminal is
finalized purely from link states with its links untouched; a stale task
with a non-terminal link gets every non-terminal link forced to `'error'`
(so all its links end terminal) and is marked `'failed'`; a stale
processing queue item is re-queued `'pending'` with retryCount + 1 while
below the cap and permanently `'failed'` past it; and running recovery a
second time on an already-recovered task or queue item is a no-op. -/
theorem c8_stuck_recovery_reconciliation (now now2 : Nat) (t : TaskRec) (q : QueueItemRec) :
    (t.status = "processing" → STUCK_TASK_THRESHOLD_MS < taskAge now t →
      t.links.isEmpty = false → (∀ l ∈ t.links, isTerminal l.status = true) →
      (recoverTask now t).links = t.links ∧
      (recoverTask now t).status
        = (if t.links.all (fun l => isSuccess l.status) then "completed" else "failed")) ∧
    (t.status = "processing" → STUCK_TASK_THRESHOLD_MS < taskAge now t →
      ¬ (t.links.isEmpty = false ∧ ∀ l ∈ t.links, isTerminal l.status = true) →
      (∀ l ∈ t.links, l.status ∈ (["pending", "processing", "", "done", "success",
        "error", "failed"] : List String)) →
      (recoverTask now t).status = "failed" ∧
      ∀ l ∈ (recoverTask now t).links, isTerminal l.status = true) ∧
    (q.status = "processing" → queueIsStale now q = true →
      (q.retryCount + 1 ≤ MAX_CRON_RETRIES →
        recoverQueueItem now q = { q with status := "pending", lockedAt := none, retryCount := q.retryCount + 1 }) ∧
      (MAX_CRON_RETRIES < q.retryCount + 1 →
        (recoverQueueItem now q).status = "failed")) ∧
    (t.status = "processing" → STUCK_TASK_THRESHOLD_MS < taskAge now t →
      recoverTask now2 (recoverTask now t) = recoverTask now t) ∧
    (q.status = "processing" → queueIsStale now q = true →
      recoverQueueItem now2 (recoverQueueItem now q) = recoverQueueItem now q) := by
  have step : ∀ (s : TaskRec), s.status = "processing" →
      STUCK_TASK_THRESHOLD_MS < taskAge now s →
      recoverTask now s
        = if (!s.links.isEmpty && s.links.all fun l => isTerminal l.status) then
            { s with status :=
              if ((!s.links.isEmpty && s.links.all fun l => isTerminal l.status)
                  && s.links.all fun l => isSuccess l.status) then "completed"
              else "failed" }
          else { s with links := s.links.map recoveryResetLink, status := "failed" } := by
    intro s hst hstale
    unfold recoverTask
    rw [if_neg (by simp [hst]), if_neg (by simp [hstale])]
  refine ⟨?_, ?_, ?_, ?_, ?_⟩
  · intro hst hstale hne hterm
    have hallT : (!t.links.isEmpty && t.links.all fun l => isTerminal l.status) = true := by
      rw [hne, List.all_eq_true.mpr hterm]
      rfl
    rw [step t hst hstale, if_pos hallT]
    refine ⟨rfl, ?_⟩
    simp only [hallT, Bool.true_and]
  · intro hst hstale hnall hdom
    have hallT : (!t.links.isEmpty && t.links.all fun l => isTerminal l.status) = false := by
      cases hv : (!t.links.isEmpty && t.links.all fun l => isTerminal l.status)
      · rfl
      · exfalso
        apply hnall
        rw [Bool.and_eq_true] at hv
        obtain ⟨h1, h2⟩ := hv
        refine ⟨?_, List.all_eq_true.mp h2⟩
        revert h1
        cases t.links.isEmpty <;> simp
    rw [step t hst hstale, if_neg (by simp [hallT])]
    refine ⟨rfl, ?_⟩
    intro l hl
    simp only [List.mem_map] at hl
    obtain ⟨x, hx, rfl⟩ := hl
    have hd := hdom x hx
    simp only [List.mem_cons, List.not_mem_nil, or_false] at hd
    unfold recoveryResetLink
    rcases hd with h | h | h | h | h | h | h
    · rw [if_pos (Or.inr (by rw [h]; rfl))]
      rfl
    · rw [if_pos (Or.inr (by rw [h]; rfl))]
      rfl
    · rw [if_pos (Or.inl h)]
      rfl
    · rw [if_neg (by rw [h]; decide), h]
      decide
    · rw [if_neg (by rw [h]; decide), h]
      decide
    · rw [if_neg (by rw [h]; decide), h]
      decide
    · rw [if_neg (by rw [h]; decide), h]
      decide
  · intro hst hstale
    constructor
    · intro hle
      unfold recoverQueueItem
      rw [if_neg (by simp [hst]), if_neg (by simp [hstale]), if_neg (by omega)]
    · intro hgt
      unfold recoverQueueItem
      rw [if_neg (by simp [hst]), if_neg (by simp [hstale]), if_pos hgt]
  · intro hst hstale
    have h2 : ¬ (recoverTask now t).status = "processing" := by
      rw [step t hst hstale]
      split
      · split
        · exact fun hx => absurd (show ("completed" : String) = "processing" from hx) (by decide)
        · exact fun hx => absurd (show ("failed" : String) = "processing" from hx) (by decide)
      · exact fun hx => absurd (show ("failed" : String) = "processing" from hx) (by decide)
    nth_rewrite 1 [recoverTask]
    rw [if_pos h2]
  · intro hst hstale
    have h2 : ¬ (recoverQueueItem now q).status = "processing" := by
      unfold recoverQueueItem
      rw [if_neg (by simp [hst]), if_neg (by simp [hstale])]
      split
      · exact fun hx => absurd (show ("failed" : String) = "processing" from hx) (by decide)
      · exact fun hx => absurd (show ("pending" : String) = "processing" from hx) (by decide)
    nth_rewrite 1 [recoverQueueItem]
    rw [if_pos h2]

/-- Witness for C8 at concrete stale documents: an all-terminal task is
finalized from its links, a half-done task is failed with links forced
terminal, a capped queue item permanently fails, and re-running recovery
changes nothing. -/
theorem c8_stuck_recovery_reconciliation_witness :
    (recoverTask 700000 ⟨"processing", some 0, none,
        [⟨0, "u", "done", none, none⟩]⟩).links = [⟨0, "u", "done", none, none⟩] ∧
    (recoverTask 700000 ⟨"processing", some 0, none,
        [⟨0, "u", "pending", none, none⟩]⟩).status = "failed" ∧
    (recoverQueueItem 700000 ⟨"processing", some 0, none, none, 3, none⟩).status
      = "failed" ∧
    recoverTask 900000 (recoverTask 700000 ⟨"processing", some 0, none,
        [⟨0, "u", "pending", none, none⟩]⟩)
      = recoverTask 700000 ⟨"processing", some 0, none,
        [⟨0, "u", "pending", none, none⟩]⟩ := by
  refine ⟨?_, ?_, ?_, ?_⟩
  · exact ((c8_stuck_recovery_reconciliation 700000 0
      ⟨"processing", some 0, none, [⟨0, "u", "done", none, none⟩]⟩
      ⟨"failed", none, none, none, 0, none⟩).1 rfl (by decide) (by decide)
      (by decide)).1
  · exact ((c8_stuck_recovery_reconciliation 700000 0
      ⟨"processing", some 0, none, [⟨0, "u", "pending", none, none⟩]⟩
      ⟨"failed", none, none, none, 0, none⟩).2.1 rfl (by decide) (by decide)
      (by decide)).1
  · exact ((c8_stuck_recovery_reconciliation 700000 0
      ⟨"failed", some 0, none, []⟩
      ⟨"processing", some 0, none, none, 3, none⟩).2.2.1 rfl (by decide)).2
      (by decide)
  · exact (c8_stuck_recovery_reconciliation 700000 900000
      ⟨"processing", some 0, none, [⟨0, "u", "pending", none, none⟩]⟩
      ⟨"failed", none, none, none, 0, none⟩).2.2.2.1 rfl (by decide)

/-- Helper: a single stream message only ever writes terminal
(done/error) shield entries. -/
theorem applyStreamMsg_shield_terminal (st : LinkStreamState) (m : StreamMsg)
    (e : ShieldEntry) (he : (applyStreamMsg st m).shield = some e)
    (h : ∀ x, st.shield = some x → x.status = "done" ∨ x.status = "error") :
    e.status = "done" ∨ e.status = "error" := by
  have hstep : (streamStep1 st m).shield = st.shield := by
    unfold streamStep1
    split <;> rfl
  unfold applyStreamMsg at he
  split at he
  · exact Or.inl (congrArg ShieldEntry.status (Option.some.inj he)).symm
  · exact Or.inr (congrArg ShieldEntry.status (Option.some.inj he)).symm
  · split at he
    · exact Or.inr (congrArg ShieldEntry.status (Option.some.inj he)).symm
    · rw [hstep] at he
      exact h e he
  · rw [hstep] at he
    exact h e he

/-- C9: every shield entry a stream leaves behind records a terminal
(`'done'`/`'error'`) status; whenever such a record exists and the polled
snapshot still says pending/processing (or empty), the merge keeps the
shield's terminal status — a poll can never regress a stream-observed
terminal result to non-terminal; the shield also wins unconditionally
during the 15-second grace window after the stream ends; without a shield
record the polled link passes through untouched. -/
theorem c9_poll_never_regresses_stream_terminal (st : LinkStreamState)
    (ms : List StreamMsg) (fb : LinkRec) (p : ShieldEntry)
    (now endedAt : Nat) (r : Bool) :
    ((∀ x, st.shield = some x → x.status = "done" ∨ x.status = "error") →
      ∀ x, (runStream st ms).shield = some x →
        x.status = "done" ∨ x.status = "error") ∧
    (isFbPendingStatus fb.status = true →
      (mergeLink (some p) r fb).status = p.status) ∧
    (now - endedAt < 15000 → isRecentlyEnded now (some endedAt) = true) ∧
    (isRecentlyEnded now (some endedAt) = true →
      (mergeLink (some p) (isRecentlyEnded now (some endedAt)) fb).status
        = p.status) ∧
    (mergeLink none r fb = fb) := by
  refine ⟨?_, ?_, ?_, ?_, rfl⟩
  · intro h0
    induction ms generalizing st with
    | nil => exact h0
    | cons m rest ih =>
      intro x hx
      exact ih (applyStreamMsg st m)
        (fun y hy => applyStreamMsg_shield_terminal st m y hy h0) x hx
  · intro hp
    simp only [mergeLink]
    rw [if_pos (Or.inl hp)]
  · intro hlt
    unfold isRecentlyEnded
    simp [hlt]
  · intro hre
    simp only [mergeLink]
    rw [if_pos (Or.inr hre)]

/-- Witness for C9: a stream that reports a final link and `'done'`, a
polled snapshot still saying `'pending'`, and a poll arriving 5s into the
grace window. -/
theorem c9_poll_never_regresses_stream_terminal_witness :
    ((runStream ⟨"processing", none, none⟩
        [⟨none, some "https://cdn.example/f"⟩, ⟨some "done", none⟩]).shield.map
      (fun x => x.status) = some "done") ∧
    (mergeLink (some ⟨"done", some "https://cdn.example/f"⟩) false
      ⟨0, "u", "pending", none, none⟩).status = "done" ∧
    isRecentlyEnded 20000 (some 15001) = true := by
  refine ⟨?_, ?_, ?_⟩
  · have hterm := (c9_poll_never_regresses_stream_terminal
      ⟨"processing", none, none⟩
      [⟨none, some "https://cdn.example/f"⟩, ⟨some "done", none⟩]
      ⟨0, "u", "pending", none, none⟩ ⟨"done", none⟩ 0 0 false).1
      (fun x hx => by cases hx)
    rcases hs : (runStream ⟨"processing", none, none⟩
        [⟨none, some "https://cdn.example/f"⟩, ⟨some "done", none⟩]).shield with
      _ | e
    · exact absurd hs (by decide)
    · rcases hterm e hs with h | h <;> simp [h]
      cases hs.symm.trans (by decide :
        (runStream ⟨"processing", none, none⟩
          [⟨none, some "https://cdn.example/f"⟩, ⟨some "done", none⟩]).shield
        = some ⟨"done", some "https://cdn.example/f"⟩)
      exact absurd h (by decide)
  · exact (c9_poll_never_regresses_stream_terminal
      ⟨"processing", none, none⟩ [] ⟨0, "u", "pending", none, none⟩
      ⟨"done", some "https://cdn.example/f"⟩ 0 0 false).2.1 (by decide)
  · exact (c9_poll_never_regresses_stream_terminal
      ⟨"processing", none, none⟩ [] ⟨0, "u", "pending", none, none⟩
      ⟨"done", none⟩ 20000 15001 false).2.2.1 (by decide)

/-- C10: submitting an empty-normalized url is ignored; a duplicate
submission whose existing task derives `'completed'` shows that task's
existing result without dispatching; a duplicate whose task derives
`'processing'` is rejected with the still-processing signal, never
double-dispatched; a fresh url is dispatched, and the server then either
merges into the existing task document for that url (same task id) or
creates a new one. -/
theorem c10_submit_create_or_merge (tasks : List TaskView) (url : String)
    (dup : TaskView) (extraction : ExtractOutcome) (tid : String) (doc : TaskDoc) :
    (¬ trimStr url = "" →
      tasks.find? (fun t => normalizeUrl t.url == normalizeUrl (trimStr url)) = some dup →
      taskTrueStatus dup = "completed" →
      startProcessGate tasks url = SubmitDecision.showCompleted dup.id) ∧
    (¬ trimStr url = "" →
      tasks.find? (fun t => normalizeUrl t.url == normalizeUrl (trimStr url)) = some dup →
      taskTrueStatus dup = "processing" →
      startProcessGate tasks url = SubmitDecision.stillProcessing dup.id) ∧
    (¬ trimStr url = "" →
      tasks.find? (fun t => normalizeUrl t.url == normalizeUrl (trimStr url)) = none →
      startProcessGate tasks url = SubmitDecision.dispatch (trimStr url)) ∧
    (∃ d, postTasks (some (tid, doc)) extraction url = PostOutcome.mergedInto tid d) ∧
    (∃ d, postTasks none extraction url = PostOutcome.created d) := by
  refine ⟨?_, ?_, ?_, ?_, ?_⟩
  · intro hne hfind hst
    unfold startProcessGate
    rw [if_neg hne, hfind]
    simp only
    rw [if_pos hst]
  · intro hne hfind hst
    unfold startProcessGate
    rw [if_neg hne, hfind]
    simp only
    rw [if_neg (by rw [hst]; decide), if_pos hst]
  · intro hne hfind
    unfold startProcessGate
    rw [if_neg hne, hfind]
  · cases extraction with
    | success nl =>
      by_cases hn : nl.isEmpty = true
      · exact ⟨doc, by simp [postTasks, hn]⟩
      · exact ⟨{ doc with status := "pending", links := mergeLinks doc.links nl },
          by simp [postTasks, hn]⟩
    | failure m => exact ⟨doc, rfl⟩
  · cases extraction with
    | success nl =>
      by_cases hn : nl.isEmpty = true
      · exact ⟨{ url := trimStr url, status := "failed", links := [] },
          by simp [postTasks, hn]⟩
      · exact ⟨{ url := trimStr url, status := "pending", links := nl.enum.map fun p => ⟨p.1, p.2.2, "pending", none, none⟩ }, by simp [postTasks, hn]⟩
    | failure m => exact ⟨_, rfl⟩

/-- Witness for C10 at concrete inputs: a completed duplicate, a
processing duplicate, a fresh url, and both server paths. -/
theorem c10_submit_create_or_merge_witness :
    startProcessGate
      [⟨"t1", "https://Site.example/Movie/", false, "completed",
        [(none, none, some "done")]⟩]
      " http://site.example/movie " = SubmitDecision.showCompleted "t1" ∧
    startProcessGate
      [⟨"t2", "http://site.example/movie", false, "processing",
        [(none, none, some "pending")]⟩]
      "https://site.example/movie/" = SubmitDecision.stillProcessing "t2" ∧
    startProcessGate [] "http://fresh.example/x"
      = SubmitDecision.dispatch "http://fresh.example/x" ∧
    postTasks (some ("t1", ⟨"u", "completed", []⟩))
      (ExtractOutcome.success [("n", "http://l.example/1")]) "u"
      = PostOutcome.mergedInto "t1"
          ⟨"u", "pending", [⟨0, "http://l.example/1", "pending", none, none⟩]⟩ ∧
    postTasks none (ExtractOutcome.failure "no links") "http://fresh.example/x"
      = PostOutcome.created ⟨"http://fresh.example/x", "failed", []⟩ := by
  refine ⟨?_, ?_, ?_, ?_, ?_⟩
  · exact (c10_submit_create_or_merge
      [⟨"t1", "https://Site.example/Movie/", false, "completed",
        [(none, none, some "done")]⟩]
      " http://site.example/movie "
      ⟨"t1", "https://Site.example/Movie/", false, "completed",
        [(none, none, some "done")]⟩
      (ExtractOutcome.failure "") "" ⟨"", "", []⟩).1
      (by decide) (by decide) (by decide)
  · exact (c10_submit_create_or_merge
      [⟨"t2", "http://site.example/movie", false, "processing",
        [(none, none, some "pending")]⟩]
      "https://site.example/movie/"
      ⟨"t2", "http://site.example/movie", false, "processing",
        [(none, none, some "pending")]⟩
      (ExtractOutcome.failure "") "" ⟨"", "", []⟩).2.1
      (by decide) (by decide) (by decide)
  · exact (c10_submit_create_or_merge [] "http://fresh.example/x"
      ⟨"", "", false, "", []⟩ (ExtractOutcome.failure "") "" ⟨"", "", []⟩).2.2.1
      (by decide) (by decide)
  · obtain ⟨d, hd⟩ := (c10_submit_create_or_merge [] "u"
      ⟨"", "", false, "", []⟩
      (ExtractOutcome.success [("n", "http://l.example/1")]) "t1"
      ⟨"u", "completed", []⟩).2.2.2.1
    rw [hd]
    have : d = ⟨"u", "pending", [⟨0, "http://l.example/1", "pending", none, none⟩]⟩ := by
      have := hd.symm.trans (by decide :
        postTasks (some ("t1", (⟨"u", "completed", []⟩ : TaskDoc)))
          (ExtractOutcome.success [("n", "http://l.example/1")]) "u"
        = PostOutcome.mergedInto "t1"
            ⟨"u", "pending", [⟨0, "http://l.example/1", "pending", none, none⟩]⟩)
      exact PostOutcome.mergedInto.inj this |>.2
    rw [this]
  · obtain ⟨d, hd⟩ := (c10_submit_create_or_merge [] "http://fresh.example/x"
      ⟨"", "", false, "", []⟩ (ExtractOutcome.failure "no links") ""
      ⟨"", "", []⟩).2.2.2.2
    rw [hd]
    have : d = ⟨"http://fresh.example/x", "failed", []⟩ := by
      have := hd.symm.trans (by decide :
        postTasks none (ExtractOutcome.failure "no links") "http://fresh.example/x"
        = PostOutcome.created ⟨"http://fresh.example/x", "failed", []⟩)
      exact PostOutcome.created.inj this
    rw [this]

/-- Witness for C1 at a concrete input: one link array with statuses
pending/done/error, updated to done at id 0, leaving a non-terminal link,
so the derived status is `"processing"`. -/
theorem c1_task_status_pure_function_witness :
    ((saveResultToFirestore
      [⟨0, "https://a.example/x", "pending", none, none⟩,
       ⟨1, "https://b.example/y", "pending", none, none⟩]
      0 "https://a.example/x"
      ⟨some "done", some "https://cdn.example/f", none⟩).2 = "processing") := by
  have h := c1_task_status_pure_function
    [⟨0, "https://a.example/x", "pending", none, none⟩,
     ⟨1, "https://b.example/y", "pending", none, none⟩]
    0 "https://a.example/x"
    ⟨some "done", some "https://cdn.example/f", none⟩
    (by decide)
  exact h.1.mpr ⟨⟨1, "https://b.example/y", "pending", none, none⟩, by decide, by decide⟩

end Mflix
